import Mathlib

/-!
Verification development for the aws-network-routing-project repository.

The repository contains two Python command-line tools:
  * `firewall_manager.py` — reconciles declarative firewall policies and
    stateful rule groups against AWS Network Firewall;
  * `route_manager.py` — reconciles declarative route-table entries against
    AWS EC2 route tables.

Both are shallowly embedded here.  The AWS SDK boundary is modelled as an
explicit "remote" record of oracles (does a policy / route table exist,
does the provider accept a mutating call), and every operation returns,
next to its result, the ordered trace of SDK calls it issued, with
read-only calls (describe / load) distinguished from mutating ones.
-/

namespace AwsNet

/-- Python's `str.upper()` restricted to the ASCII inputs used by the tools:
uppercase every character. -/
def pyUpper (s : String) : String := ⟨s.data.map Char.toUpper⟩

/-- Python's `str.lower()` restricted to the ASCII inputs used by the tools:
lowercase every character. -/
def pyLower (s : String) : String := ⟨s.data.map Char.toLower⟩

/-! ## Firewall manager (`firewall_manager.py`) -/

namespace FirewallManager

/-- `FirewallRule` pydantic model (firewall_manager.py lines 33-41). -/
structure FirewallRule where
  name : String
  priority : Int
  action : String
  source : String
  destination : String
  protocol : String
  description : Option String := none
deriving Repr, DecidableEq

/-- `FirewallPolicy` pydantic model (lines 44-48). -/
structure FirewallPolicy where
  name : String
  description : Option String := none
  rules : List FirewallRule := []
deriving Repr, DecidableEq

/-- `FirewallConfiguration` pydantic model (lines 51-53). -/
structure FirewallConfiguration where
  policies : List FirewallPolicy := []
deriving Repr, DecidableEq

/-- One SDK call issued by the firewall tool.  `describePolicy` is the
read-only `describe_firewall_policy` fetch; the others mutate remote
state. -/
inductive FwCall where
  | describePolicy (policyName : String)
  | createRuleGroup (groupName : String) (rulesString : String)
  | createPolicy (policyName : String)
  | updatePolicy (policyName : String)
deriving Repr, DecidableEq

/-- Whether a firewall SDK call mutates remote state. -/
def FwCall.isMutating : FwCall → Bool
  | .describePolicy _ => false
  | .createRuleGroup _ _ => true
  | .createPolicy _ => true
  | .updatePolicy _ => true

/-- The remote AWS side seen by the firewall tool: existence of a policy
(`describe_firewall_policy` finds it), whether the provider accepts each
mutating call, and the result of the STS `get_caller_identity` lookup
(`Except.error` = the lookup raised). -/
structure FirewallRemote where
  policyExists : String → Bool
  createPolicyOk : String → Bool
  updatePolicyOk : String → Bool
  createRuleGroupOk : String → Bool
  identity : Except String String

/-- `FirewallManager._convert_rule_to_suricata` (lines 189-199).  The msg
field is Python's `rule.description or rule.name`: `or` falls back to the
rule name when the description is missing OR an empty string (falsy). -/
def convert_rule_to_suricata (rule : FirewallRule) : String :=
  let action := if pyUpper rule.action = "DROP" then "drop" else "alert"
  let source := if pyUpper rule.source = "ANY" then "any" else rule.source
  let destination := if pyUpper rule.destination = "ANY" then "any" else rule.destination
  let protocol := if pyUpper rule.protocol = "ANY" then "any" else pyLower rule.protocol
  let msg := match rule.description with
    | some s => if s = "" then rule.name else s
    | none => rule.name
  action ++ " " ++ protocol ++ " " ++ source ++ " any -> " ++ destination ++
    " any (msg:\"" ++ msg ++ "\"; sid:" ++ toString rule.priority ++ ";)"

/-- `FirewallManager._get_account_id` (lines 201-208): on any lookup
failure, fall back to the placeholder account id. -/
def get_account_id (identityLookup : Except String String) : String :=
  match identityLookup with
  | .ok account => account
  | .error _ => "123456789012"

/-- `FirewallManager._create_rule_group` (lines 160-187): joins the
Suricata rules and issues one `create_rule_group` call; returns whether the
provider accepted it.  The call is issued (traced) even when rejected. -/
def create_rule_group (remote : FirewallRemote) (group_name : String)
    (rules : List FirewallRule) : Bool × List FwCall :=
  let rules_string := String.intercalate "\n" (rules.map convert_rule_to_suricata)
  (remote.createRuleGroupOk group_name, [FwCall.createRuleGroup group_name rules_string])

/-- `FirewallManager._convert_rules_to_aws_format` (lines 142-158): for each
rule, create a `<name>-rule-group` rule group (the boolean result of that
creation is discarded, exactly as in the source) and append the constructed
ARN reference regardless. -/
def convert_rules_to_aws_format (remote : FirewallRemote) (region : String) :
    List FirewallRule → List String × List FwCall
  | [] => ([], [])
  | rule :: rest =>
    let rule_group_name := rule.name ++ "-rule-group"
    let created := create_rule_group remote rule_group_name [rule]
    let r := convert_rules_to_aws_format remote region rest
    (("arn:aws:network-firewall:" ++ region ++ ":" ++ get_account_id remote.identity ++
        ":stateful-rulegroup/" ++ rule_group_name) :: r.1,
      created.2 ++ r.2)

/-- `FirewallManager.create_firewall_policy` (lines 96-117): converts the
rules (issuing the rule-group creations), then issues `create_firewall_policy`;
succeeds iff the provider accepts that policy-level call. -/
def create_firewall_policy (remote : FirewallRemote) (region : String)
    (policy_config : FirewallPolicy) : Bool × List FwCall :=
  let conv := convert_rules_to_aws_format remote region policy_config.rules
  (remote.createPolicyOk policy_config.name, conv.2 ++ [FwCall.createPolicy policy_config.name])

/-- `FirewallManager.update_firewall_policy` (lines 119-140). -/
def update_firewall_policy (remote : FirewallRemote) (region : String)
    (policy_config : FirewallPolicy) : Bool × List FwCall :=
  let conv := convert_rules_to_aws_format remote region policy_config.rules
  (remote.updatePolicyOk policy_config.name, conv.2 ++ [FwCall.updatePolicy policy_config.name])

/-- `FirewallManager._is_valid_action` (lines 259-262). -/
def is_valid_action (action : String) : Bool :=
  let valid_actions := ["ALLOW", "DROP", "ALERT"]
  valid_actions.contains (pyUpper action)

/-- `FirewallManager._is_valid_protocol` (lines 264-267). -/
def is_valid_protocol (protocol : String) : Bool :=
  let valid_protocols := ["TCP", "UDP", "ANY", "ICMP"]
  valid_protocols.contains (pyUpper protocol)

/-- `FirewallManager.validate_configuration` (lines 241-257): every rule of
every policy must have a valid action and protocol. -/
def validate_configuration (config : FirewallConfiguration) : Bool :=
  config.policies.all fun policy =>
    policy.rules.all fun rule =>
      is_valid_action rule.action && is_valid_protocol rule.protocol

/-- The per-policy loop of `FirewallManager.apply_configuration`
(lines 276-296): fetch the policy (read-only, always), then in dry-run
count it as success without mutating; otherwise update or create and count
only on success.  Returns (success count, call trace). -/
def process_policies (remote : FirewallRemote) (region : String) (dry_run : Bool) :
    List FirewallPolicy → Nat × List FwCall
  | [] => (0, [])
  | policy_config :: rest =>
    let fetch := [FwCall.describePolicy policy_config.name]
    let this :=
      if remote.policyExists policy_config.name then
        if dry_run then
          (1, ([] : List FwCall))
        else
          let r := update_firewall_policy remote region policy_config
          ((if r.1 then 1 else 0), r.2)
      else
        if dry_run then
          (1, ([] : List FwCall))
        else
          let r := create_firewall_policy remote region policy_config
          ((if r.1 then 1 else 0), r.2)
    let next := process_policies remote region dry_run rest
    (this.1 + next.1, fetch ++ this.2 ++ next.2)

/-- Result of `FirewallManager.apply_configuration`. -/
structure ApplyResult where
  success : Bool
  successCount : Nat
  calls : List FwCall
deriving Repr, DecidableEq

/-- `FirewallManager.apply_configuration` (lines 269-301): process every
policy and report overall success iff every policy succeeded. -/
def apply_configuration (remote : FirewallRemote) (region : String)
    (config : FirewallConfiguration) (dry_run : Bool) : ApplyResult :=
  let r := process_policies remote region dry_run config.policies
  { success := decide (r.1 = config.policies.length)
    successCount := r.1
    calls := r.2 }

/-- `firewall_manager.main` exit status (lines 304-386): exit 1 on missing
credentials; `--list-policies` returns before loading; exit 1 on load
failure; exit 1 on validation failure; `--validate-only` returns; otherwise
apply, and exit 1 when `apply_configuration` reports failure. -/
def firewall_tool_exit (credentialsOk : Bool) (listPolicies : Bool)
    (loaded : Option FirewallConfiguration) (remote : FirewallRemote)
    (region : String) (dry_run validate_only : Bool) : Nat :=
  if credentialsOk then
    if listPolicies then 0
    else
      match loaded with
      | none => 1
      | some config =>
        if validate_configuration config then
          if validate_only then 0
          else if (apply_configuration remote region config dry_run).success then 0 else 1
        else 1
  else 1

end FirewallManager

/-! ## Route manager (`route_manager.py`) -/

namespace RouteManager

/-- `Route` pydantic model (route_manager.py lines 33-38). -/
structure Route where
  destination : String
  target : String
  description : Option String := none
  target_type : Option String := none
deriving Repr, DecidableEq

/-- `RouteTable` pydantic model (lines 41-45). -/
structure RouteTable where
  table_id : String
  routes : List Route := []
  description : Option String := none
deriving Repr, DecidableEq

/-- `RouteConfiguration` pydantic model (lines 48-50). -/
structure RouteConfiguration where
  route_tables : List RouteTable := []
deriving Repr, DecidableEq

/-- One route of the remote route table, as seen through the boto3 resource:
the destination CIDR plus the optional target attributes probed by
`_get_route_target` / `_get_target_type`.  A `none` or empty-string field
plays the role of a missing/falsy Python attribute. -/
structure RemoteRoute where
  destination_cidr_block : String
  gateway_id : Option String := none
  nat_gateway_id : Option String := none
  vpc_peering_connection_id : Option String := none
  network_interface_id : Option String := none
deriving Repr, DecidableEq

/-- Python's `hasattr(route, a) and route.a` check on an optional string
attribute: present and truthy (non-empty). -/
def attrTruthy (a : Option String) : Bool :=
  match a with
  | some s => decide (s ≠ "")
  | none => false

/-- `RouteManager._get_route_target` (lines 105-116). -/
def get_route_target (route : RemoteRoute) : String :=
  if attrTruthy route.gateway_id then route.gateway_id.getD ""
  else if attrTruthy route.nat_gateway_id then route.nat_gateway_id.getD ""
  else if attrTruthy route.vpc_peering_connection_id then route.vpc_peering_connection_id.getD ""
  else if attrTruthy route.network_interface_id then route.network_interface_id.getD ""
  else "unknown"

/-- `RouteManager._get_target_type` (lines 118-129). -/
def get_target_type (route : RemoteRoute) : String :=
  if attrTruthy route.gateway_id then "gateway"
  else if attrTruthy route.nat_gateway_id then "nat"
  else if attrTruthy route.vpc_peering_connection_id then "vpc-peering"
  else if attrTruthy route.network_interface_id then "network-interface"
  else "unknown"

/-- One record of the list built by `get_existing_routes`. -/
structure ExistingRoute where
  destination : String
  target : String
  target_type : String
deriving Repr, DecidableEq

/-- `RouteManager.get_existing_routes` (lines 93-103): every remote route
except the one whose destination is `0.0.0.0/0` (the source's "skip local
route" comparison). -/
def get_existing_routes (routes : List RemoteRoute) : List ExistingRoute :=
  (routes.filter fun route => route.destination_cidr_block != "0.0.0.0/0").map
    fun route =>
      { destination := route.destination_cidr_block
        target := get_route_target route
        target_type := get_target_type route }

/-- The set `existing_destinations` built at line 192 of
`update_route_table` (list membership models Python set membership). -/
def existing_destinations (routes : List RemoteRoute) : List String :=
  (get_existing_routes routes).map (·.destination)

/-- The keyword parameter chosen by `create_route`'s target-prefix
dispatch (lines 140-150). -/
inductive TargetParam where
  | gatewayId
  | natGatewayId
  | vpcPeeringConnectionId
  | networkInterfaceId
deriving Repr, DecidableEq

/-- The prefix rule of `RouteManager.create_route` (lines 140-150):
`igw-` / `nat-` / `pcx-` / `eni-`, anything else assumed to be a
gateway id. -/
def targetParamFor (target : String) : TargetParam :=
  if target.startsWith "igw-" then TargetParam.gatewayId
  else if target.startsWith "nat-" then TargetParam.natGatewayId
  else if target.startsWith "pcx-" then TargetParam.vpcPeeringConnectionId
  else if target.startsWith "eni-" then TargetParam.networkInterfaceId
  else TargetParam.gatewayId

/-- One SDK call issued by the route tool.  `loadRouteTable` is the
read-only fetch performed by `get_route_table`; the others mutate remote
state. -/
inductive RtCall where
  | loadRouteTable (tableId : String)
  | createRoute (tableId : String) (destination : String)
      (param : TargetParam) (target : String)
  | deleteRoute (tableId : String) (destination : String)
deriving Repr, DecidableEq

/-- Whether a route-tool SDK call mutates remote state. -/
def RtCall.isMutating : RtCall → Bool
  | .loadRouteTable _ => false
  | .createRoute _ _ _ _ => true
  | .deleteRoute _ _ => true

/-- Whether a route-tool SDK call is a route creation. -/
def RtCall.isCreate : RtCall → Bool
  | .createRoute _ _ _ _ => true
  | _ => false

/-- Provider outcome of one `create_route` API call: accepted, rejected
with `RouteAlreadyExists`, or rejected with any other error. -/
inductive CreateOutcome where
  | ok
  | alreadyExists
  | error
deriving Repr, DecidableEq

/-- The remote AWS side seen by the route tool: `tableRoutes` is the
`get_route_table` lookup (`none` = `InvalidRouteTableID.NotFound`, otherwise
the table's routes), and `createRouteOutcome` the provider's answer to a
`create_route` call for a given table id and desired route. -/
structure RouteRemote where
  tableRoutes : String → Option (List RemoteRoute)
  createRouteOutcome : String → Route → CreateOutcome

/-- `RouteManager.create_route` (lines 131-162): issue the `create_route`
call with the prefix-selected target parameter; `RouteAlreadyExists` is
treated as success, any other provider error as failure. -/
def create_route (remote : RouteRemote) (table_id : String) (route : Route) :
    Bool × List RtCall :=
  let call := RtCall.createRoute table_id route.destination
    (targetParamFor route.target) route.target
  match remote.createRouteOutcome table_id route with
  | CreateOutcome.ok => (true, [call])
  | CreateOutcome.alreadyExists => (true, [call])
  | CreateOutcome.error => (false, [call])

/-- The per-route loop of `RouteManager.update_route_table`
(lines 195-206): a route whose destination is already in
`existing_destinations` is skipped (printed as "already exists") without
touching the success count; otherwise in dry-run the count is incremented
without any call, and in live mode `create_route` is issued and counted on
success.  Returns (success count, call trace). -/
def process_routes (remote : RouteRemote) (table_id : String)
    (existing : List String) (dry_run : Bool) : List Route → Nat × List RtCall
  | [] => (0, [])
  | route :: rest =>
    let next := process_routes remote table_id existing dry_run rest
    if route.destination ∈ existing then next
    else if dry_run then (next.1 + 1, next.2)
    else
      let c := create_route remote table_id route
      ((if c.1 then 1 else 0) + next.1, c.2 ++ next.2)

/-- Result of `RouteManager.update_route_table`: the boolean the method
returns, the per-route `success_count` it prints, and the call trace. -/
structure UpdateResult where
  success : Bool
  successCount : Nat
  calls : List RtCall
deriving Repr, DecidableEq

/-- `RouteManager.update_route_table` (lines 177-208): fetch the table
(read-only, recorded first); a missing table fails the group; otherwise
compute `existing_destinations` once, run the per-route loop, and return
`True` unconditionally. -/
def update_route_table (remote : RouteRemote) (route_table_config : RouteTable)
    (dry_run : Bool) : UpdateResult :=
  match remote.tableRoutes route_table_config.table_id with
  | none =>
    { success := false
      successCount := 0
      calls := [RtCall.loadRouteTable route_table_config.table_id] }
  | some remoteRoutes =>
    let existing := existing_destinations remoteRoutes
    let r := process_routes remote route_table_config.table_id existing dry_run
      route_table_config.routes
    { success := true
      successCount := r.1
      calls := RtCall.loadRouteTable route_table_config.table_id :: r.2 }

/-- Splitting a character list at every occurrence of `sep`, the behaviour
of Python's `str.split(sep)` for a one-character separator. -/
def splitOnChar (sep : Char) : List Char → List (List Char)
  | [] => [[]]
  | c :: cs =>
    let rest := splitOnChar sep cs
    if c = sep then [] :: rest
    else
      match rest with
      | [] => [[c]]
      | g :: gs => (c :: g) :: gs

/-- Decimal value of a digit string. -/
def digitsVal (s : List Char) : Nat :=
  s.foldl (fun n c => n * 10 + (c.toNat - 48)) 0

/-- One dotted-quad octet as accepted by `ipaddress`: non-empty, at most
three digits, no leading zero, value at most 255. -/
def isOctet (s : List Char) : Bool :=
  decide (s ≠ []) && decide (s.length ≤ 3) && s.all Char.isDigit &&
    (decide (s.length = 1) || decide (s.head? ≠ some '0')) &&
    decide (digitsVal s ≤ 255)

/-- A dotted-quad IPv4 address. -/
def isIPv4Addr (s : List Char) : Bool :=
  match splitOnChar '.' s with
  | [a, b, c, d] => isOctet a && isOctet b && isOctet c && isOctet d
  | _ => false

/-- A decimal prefix length between 0 and 32. -/
def isPrefixLenStr (s : List Char) : Bool :=
  decide (s ≠ []) && s.all Char.isDigit && decide (digitsVal s ≤ 32)

/-- `RouteManager._is_valid_cidr` (lines 245-252).  Models the acceptance
of `ipaddress.IPv4Network(cidr, strict=False)` for the dotted-quad form
with an optional decimal prefix length (the forms the configuration format
uses); the stdlib's extra netmask/integer spellings are out of scope. -/
def is_valid_cidr (cidr : String) : Bool :=
  match splitOnChar '/' cidr.data with
  | [addr] => isIPv4Addr addr
  | [addr, plen] => isIPv4Addr addr && isPrefixLenStr plen
  | _ => false

/-- `RouteManager.validate_configuration` (lines 226-243): every referenced
route table must resolve remotely and every route destination must be a
valid CIDR; any failure fails the whole validation. -/
def validate_configuration (remote : RouteRemote) (config : RouteConfiguration) :
    Bool :=
  config.route_tables.all fun route_table =>
    (remote.tableRoutes route_table.table_id).isSome &&
      route_table.routes.all fun route => is_valid_cidr route.destination

/-- The per-table loop of `route_manager.main` (lines 305-307): apply every
table, counting the ones whose update returned `True`. -/
def process_tables (remote : RouteRemote) (dry_run : Bool) :
    List RouteTable → Nat × List RtCall
  | [] => (0, [])
  | route_table_config :: rest =>
    let r := update_route_table remote route_table_config dry_run
    let next := process_tables remote dry_run rest
    ((if r.success then 1 else 0) + next.1, r.calls ++ next.2)

/-- Outcome of one run of `route_manager.main` after a successful load:
exit code, the summary's succeeded/total table counts, and the trace of
calls issued by the apply phase. -/
structure RouteRunResult where
  exitCode : Nat
  tablesSucceeded : Nat
  tablesTotal : Nat
  calls : List RtCall
deriving Repr, DecidableEq

/-- `route_manager.main` from validation onward (lines 296-316): exit 1 on
validation failure before any apply work; `--validate-only` returns;
otherwise process every table and exit 0 regardless of per-table
results. -/
def route_main (remote : RouteRemote) (config : RouteConfiguration)
    (dry_run validate_only : Bool) : RouteRunResult :=
  if validate_configuration remote config then
    if validate_only then
      { exitCode := 0, tablesSucceeded := 0, tablesTotal := 0, calls := [] }
    else
      let r := process_tables remote dry_run config.route_tables
      { exitCode := 0
        tablesSucceeded := r.1
        tablesTotal := config.route_tables.length
        calls := r.2 }
  else
    { exitCode := 1, tablesSucceeded := 0, tablesTotal := 0, calls := [] }

/-- `route_manager.main` exit status including the earlier fatal paths:
exit 1 on missing credentials (manager construction) and on configuration
load failure, then as `route_main`. -/
def route_tool_exit (credentialsOk : Bool) (loaded : Option RouteConfiguration)
    (remote : RouteRemote) (dry_run validate_only : Bool) : Nat :=
  if credentialsOk then
    match loaded with
    | none => 1
    | some config => (route_main remote config dry_run validate_only).exitCode
  else 1

end RouteManager

end AwsNet

open AwsNet AwsNet.FirewallManager AwsNet.RouteManager

/-! ## Statement-side definitions taken from the specification's wording -/

/-- The Suricata action as the spec words it: `drop` exactly when the
action uppercases to `DROP`, `alert` for every other action. -/
def action_per_spec (action : String) : String :=
  if pyUpper action = "DROP" then "drop" else "alert"

/-- A source/destination endpoint as the spec words it: an ANY-valued
field becomes the literal lowercase token `any`, anything else is kept. -/
def endpoint_per_spec (endpoint : String) : String :=
  if pyUpper endpoint = "ANY" then "any" else endpoint

/-- The protocol as the spec words it: ANY becomes the literal `any`,
anything else is lowercased. -/
def protocol_per_spec (protocol : String) : String :=
  if pyUpper protocol = "ANY" then "any" else pyLower protocol

/-- The generated rule text as the spec words it:
`<action> <protocol> <source> any -> <destination> any
(msg:"<description-or-name>"; sid:<priority>;)`. -/
def suricata_per_spec (rule : FirewallRule) : String :=
  action_per_spec rule.action ++ " " ++ protocol_per_spec rule.protocol ++ " " ++
    endpoint_per_spec rule.source ++ " any -> " ++ endpoint_per_spec rule.destination ++
    " any (msg:\"" ++ (rule.description.getD rule.name) ++ "\"; sid:" ++
    toString rule.priority ++ ";)"

/-- The msg field as the amended claim words it: the description when it is
present and non-empty, otherwise the rule name. -/
def msg_per_amended (rule : FirewallRule) : String :=
  match rule.description with
  | some s => if s ≠ "" then s else rule.name
  | none => rule.name

/-- The generated rule text as the amended claim words it: as
`suricata_per_spec`, except that a present-but-empty description also falls
back to the rule name in the msg field. -/
def suricata_per_amended (rule : FirewallRule) : String :=
  action_per_spec rule.action ++ " " ++ protocol_per_spec rule.protocol ++ " " ++
    endpoint_per_spec rule.source ++ " any -> " ++ endpoint_per_spec rule.destination ++
    " any (msg:\"" ++ msg_per_amended rule ++ "\"; sid:" ++
    toString rule.priority ++ ";)"

/-! ## Concrete fixtures used by counterexamples and witnesses -/

/-- The spec's example desired route `10.0.1.0/24 -> igw-abc`. -/
def route1 : Route := { destination := "10.0.1.0/24", target := "igw-abc" }

/-- A one-route route-table document for table `rtb-1`. -/
def rtb1cfg : RouteTable := { table_id := "rtb-1", routes := [route1] }

/-- A route-table document whose two routes have identical destinations. -/
def rtbDupCfg : RouteTable := { table_id := "rtb-1", routes := [route1, route1] }

/-- A second, empty route-table document for table `rtb-2`. -/
def rtbOther : RouteTable := { table_id := "rtb-2", routes := [] }

/-- A two-table document. -/
def cfgTwoTables : RouteConfiguration := { route_tables := [rtb1cfg, rtbOther] }

/-- A document referencing a table id that no remote below resolves. -/
def cfgMissingTable : RouteConfiguration :=
  { route_tables := [{ table_id := "rtb-missing", routes := [] }] }

/-- The remote route `10.0.1.0/24 -> igw-abc` already present in `rtb-1`. -/
def remoteRoutes1 : List RemoteRoute :=
  [{ destination_cidr_block := "10.0.1.0/24", gateway_id := some "igw-abc" }]

/-- A remote where `rtb-1` exists and already holds `10.0.1.0/24`. -/
def remoteHasRoute : RouteRemote :=
  { tableRoutes := fun tid => if tid = "rtb-1" then some remoteRoutes1 else none
    createRouteOutcome := fun _ _ => CreateOutcome.ok }

/-- A remote where `rtb-1` exists with no comparable routes and every
route creation is rejected with a generic provider error. -/
def remoteRejects : RouteRemote :=
  { tableRoutes := fun tid => if tid = "rtb-1" then some [] else none
    createRouteOutcome := fun _ _ => CreateOutcome.error }

/-- A remote where `rtb-1` exists with no comparable routes and every
route creation is accepted. -/
def rtRemoteAllOk : RouteRemote :=
  { tableRoutes := fun tid => if tid = "rtb-1" then some [] else none
    createRouteOutcome := fun _ _ => CreateOutcome.ok }

/-- The claim C4 / spec example rule. -/
def fwRule1 : FirewallRule :=
  { name := "block-x", priority := 10, action := "DROP", source := "ANY"
    destination := "203.0.113.5/32", protocol := "TCP" }

/-- A rule whose description is present but an empty string — Python's
`or` falls back to the rule name for it. -/
def fwRuleEmptyDesc : FirewallRule :=
  { name := "block-y", priority := 11, action := "DROP", source := "ANY"
    destination := "198.51.100.7/32", protocol := "TCP", description := some "" }

/-- A one-rule firewall policy. -/
def fwPolicy1 : FirewallPolicy := { name := "policy-1", rules := [fwRule1] }

/-- A one-policy firewall document. -/
def fwCfg1 : FirewallConfiguration := { policies := [fwPolicy1] }

/-- A firewall remote where no policy exists and the provider rejects
every mutating call; the identity lookup also fails. -/
def fwRemoteReject : FirewallRemote :=
  { policyExists := fun _ => false
    createPolicyOk := fun _ => false
    updatePolicyOk := fun _ => false
    createRuleGroupOk := fun _ => false
    identity := Except.error "lookup failed" }

/-- A firewall remote where every policy exists and the provider accepts
every mutating call. -/
def fwRemoteAllOk : FirewallRemote :=
  { policyExists := fun _ => true
    createPolicyOk := fun _ => true
    updatePolicyOk := fun _ => true
    createRuleGroupOk := fun _ => true
    identity := Except.ok "123456789012" }

/-! ## Helper lemmas -/

/-- In dry-run mode the policy loop counts every policy and issues exactly
one read-only describe per policy. -/
theorem process_policies_dry (remote : FirewallRemote) (region : String) :
    ∀ ps : List FirewallPolicy,
      process_policies remote region true ps
        = (ps.length, ps.map fun p => FwCall.describePolicy p.name) := by
  intro ps
  induction ps with
  | nil => rfl
  | cons p ps ih =>
    cases h : remote.policyExists p.name <;>
      simp [process_policies, h, ih, Nat.add_comm]

/-- When the provider accepts every policy create and update, the live
policy loop counts every policy. -/
theorem process_policies_live_count (remote : FirewallRemote) (region : String)
    (hU : ∀ n, remote.updatePolicyOk n = true)
    (hC : ∀ n, remote.createPolicyOk n = true) :
    ∀ ps : List FirewallPolicy,
      (process_policies remote region false ps).1 = ps.length := by
  intro ps
  induction ps with
  | nil => rfl
  | cons p ps ih =>
    cases h : remote.policyExists p.name <;>
      simp [process_policies, h, ih, update_firewall_policy,
        create_firewall_policy, hU, hC, Nat.add_comm]

/-- No describe call is mutating. -/
theorem filter_mutating_describes {α : Type} (f : α → String) (l : List α) :
    ((l.map fun a => FwCall.describePolicy (f a)).filter FwCall.isMutating) = [] := by
  induction l with
  | nil => rfl
  | cons a l ih => simp [List.filter, FwCall.isMutating, ih]

/-- The success count of the policy loop does not depend on the identity
lookup (nor on anything but the three policy-level oracles). -/
theorem process_policies_count_congr (r1 r2 : FirewallRemote) (region : String)
    (d : Bool)
    (hE : ∀ n, r1.policyExists n = r2.policyExists n)
    (hU : ∀ n, r1.updatePolicyOk n = r2.updatePolicyOk n)
    (hC : ∀ n, r1.createPolicyOk n = r2.createPolicyOk n) :
    ∀ ps : List FirewallPolicy,
      (process_policies r1 region d ps).1 = (process_policies r2 region d ps).1 := by
  intro ps
  induction ps with
  | nil => rfl
  | cons p ps ih =>
    cases d <;> cases h2 : r2.policyExists p.name <;>
      simp [process_policies, hE, h2, hU, hC, ih,
        update_firewall_policy, create_firewall_policy]

/-- The ARN references built by `_convert_rules_to_aws_format`, one per
rule, independent of the rule-group creation results. -/
theorem convert_rules_arns (remote : FirewallRemote) (region : String) :
    ∀ rules : List FirewallRule,
      (convert_rules_to_aws_format remote region rules).1
        = rules.map fun r =>
            "arn:aws:network-firewall:" ++ region ++ ":" ++
              get_account_id remote.identity ++ ":stateful-rulegroup/" ++
              (r.name ++ "-rule-group") := by
  intro rules
  induction rules with
  | nil => rfl
  | cons r rs ih => simp [convert_rules_to_aws_format, ih]

/-- The dry-run route loop issues no calls at all. -/
theorem process_routes_dry_calls (remote : RouteRemote) (table_id : String)
    (existing : List String) :
    ∀ l : List Route, (process_routes remote table_id existing true l).2 = [] := by
  intro l
  induction l with
  | nil => rfl
  | cons r rs ih =>
    by_cases h : r.destination ∈ existing <;> simp [process_routes, h, ih]

/-- `create_route` reports success whenever the provider does not reject
with a generic error (acceptance and `RouteAlreadyExists` both count). -/
theorem create_route_success_of_not_error (remote : RouteRemote)
    (table_id : String) (r : Route)
    (h : remote.createRouteOutcome table_id r ≠ CreateOutcome.error) :
    (create_route remote table_id r).1 = true := by
  cases ho : remote.createRouteOutcome table_id r with
  | ok => simp [create_route, ho]
  | alreadyExists => simp [create_route, ho]
  | error => exact absurd ho h

/-- `create_route` always issues exactly one `create_route` SDK call. -/
theorem create_route_calls (remote : RouteRemote) (table_id : String) (r : Route) :
    (create_route remote table_id r).2
      = [RtCall.createRoute table_id r.destination (targetParamFor r.target) r.target] := by
  cases ho : remote.createRouteOutcome table_id r <;> simp [create_route, ho]

/-- When the provider never rejects a create with a generic error, live and
dry-run route loops have the same success count. -/
theorem process_routes_count_dry_eq_live (remote : RouteRemote)
    (table_id : String) (existing : List String)
    (h : ∀ r : Route, remote.createRouteOutcome table_id r ≠ CreateOutcome.error) :
    ∀ l : List Route,
      (process_routes remote table_id existing true l).1
        = (process_routes remote table_id existing false l).1 := by
  intro l
  induction l with
  | nil => rfl
  | cons r rs ih =>
    by_cases hm : r.destination ∈ existing
    · simp [process_routes, hm, ih]
    · simp [process_routes, hm, ih,
        create_route_success_of_not_error remote table_id r (h r), Nat.add_comm]

/-- A route loop over routes that are all already present counts nothing
and issues nothing. -/
theorem process_routes_all_existing (remote : RouteRemote) (table_id : String)
    (existing : List String) (dry_run : Bool) :
    ∀ l : List Route, (∀ r ∈ l, r.destination ∈ existing) →
      process_routes remote table_id existing dry_run l = (0, []) := by
  intro l
  induction l with
  | nil => intro _; rfl
  | cons r rs ih =>
    intro h
    have hr := h r (List.mem_cons_self r rs)
    have hrest := fun x hx => h x (List.mem_cons_of_mem r hx)
    simp [process_routes, hr, ih hrest]

/-- Every group update records its read-only table fetch. -/
theorem update_route_table_load_mem (remote : RouteRemote) (cfg : RouteTable)
    (dry_run : Bool) :
    RtCall.loadRouteTable cfg.table_id ∈ (update_route_table remote cfg dry_run).calls := by
  cases htr : remote.tableRoutes cfg.table_id <;> simp [update_route_table, htr]

/-- The per-table apply loop reaches every table of the document: the trace
holds each table's read-only fetch. -/
theorem process_tables_load_mem (remote : RouteRemote) (dry_run : Bool) :
    ∀ (ts : List RouteTable) (t : RouteTable), t ∈ ts →
      RtCall.loadRouteTable t.table_id ∈ (process_tables remote dry_run ts).2 := by
  intro ts
  induction ts with
  | nil => intro t ht; cases ht
  | cons t0 ts ih =>
    intro t ht
    rcases List.mem_cons.mp ht with h | h
    · subst h
      simp only [process_tables, List.mem_append]
      exact Or.inl (update_route_table_load_mem remote t dry_run)
    · simp only [process_tables, List.mem_append]
      exact Or.inr (ih t h)

/-- In dry-run mode a group update issues exactly its read-only fetch. -/
theorem update_route_table_dry_calls (remote : RouteRemote) (cfg : RouteTable) :
    (update_route_table remote cfg true).calls = [RtCall.loadRouteTable cfg.table_id] := by
  cases htr : remote.tableRoutes cfg.table_id <;>
    simp [update_route_table, htr, process_routes_dry_calls]

/-! ## Claim theorems -/

/-- C4 counterexample: for a rule whose description is present but empty,
the program emits the rule name as msg (Python's `description or name`
falls back on the falsy empty string), not the present description as the
claim states — the claimed format `suricata_per_spec` disagrees with the
program at this reachable input. -/
theorem C4_counterexample_empty_description :
    convert_rule_to_suricata fwRuleEmptyDesc
        = "drop tcp any any -> 198.51.100.7/32 any (msg:\"block-y\"; sid:11;)"
    ∧ suricata_per_spec fwRuleEmptyDesc
        = "drop tcp any any -> 198.51.100.7/32 any (msg:\"\"; sid:11;)"
    ∧ convert_rule_to_suricata fwRuleEmptyDesc ≠ suricata_per_spec fwRuleEmptyDesc := by
  decide

/-- C4 amended: for every firewall rule, the generated Suricata rule text
equals `<action> <protocol> <source> any -> <destination> any
(msg:"<description-or-name>"; sid:<priority>;)` where the action is `drop`
exactly when the rule's action uppercases to DROP and `alert` otherwise,
the protocol is lowercased, ANY-valued protocol/source/destination fields
become the literal lowercase `any`, msg is the description when present and
non-empty and otherwise the name, and sid is the integer priority; in
particular the example rule `block-x` translates to
`drop tcp any any -> 203.0.113.5/32 any (msg:"block-x"; sid:10;)`. -/
theorem C4_amended_suricata_rule_text :
    (∀ rule : FirewallRule, convert_rule_to_suricata rule = suricata_per_amended rule)
    ∧ convert_rule_to_suricata fwRule1
        = "drop tcp any any -> 203.0.113.5/32 any (msg:\"block-x\"; sid:10;)" := by
  constructor
  · intro rule
    cases hd : rule.description with
    | none =>
      simp [convert_rule_to_suricata, suricata_per_amended, msg_per_amended, hd,
        action_per_spec, protocol_per_spec, endpoint_per_spec]
    | some s =>
      by_cases h : s = "" <;>
        simp [convert_rule_to_suricata, suricata_per_amended, msg_per_amended, hd, h,
          action_per_spec, protocol_per_spec, endpoint_per_spec]
  · decide

/-- C7: a destination is in the existing-destination set built for a route
table exactly when some remote route has that destination and it is not
`0.0.0.0/0`; consequently `0.0.0.0/0` itself is never in the set, so a
desired default route is always classified as not yet present even when
present remotely. -/
theorem C7_default_route_excluded :
    (∀ (routes : List RemoteRoute) (d : String),
        d ∈ existing_destinations routes
          ↔ (∃ route ∈ routes, route.destination_cidr_block = d) ∧ d ≠ "0.0.0.0/0")
    ∧ ∀ routes : List RemoteRoute, "0.0.0.0/0" ∉ existing_destinations routes := by
  have hmem : ∀ (routes : List RemoteRoute) (d : String),
      d ∈ existing_destinations routes
        ↔ (∃ route ∈ routes, route.destination_cidr_block = d) ∧ d ≠ "0.0.0.0/0" := by
    intro routes d
    simp only [existing_destinations, get_existing_routes, List.map_map,
      List.mem_map, List.mem_filter, Function.comp, bne_iff_ne, ne_eq]
    constructor
    · rintro ⟨route, ⟨hr, hne⟩, hd⟩
      subst hd
      exact ⟨⟨route, hr, rfl⟩, hne⟩
    · rintro ⟨⟨route, hr, hd⟩, hne⟩
      subst hd
      exact ⟨route, ⟨hr, hne⟩, rfl⟩
  refine ⟨hmem, fun routes h => ?_⟩
  exact ((hmem routes _).mp h).2 rfl

/-- C9: the account-id lookup falls back to the fixed placeholder
`123456789012` whenever the identity lookup fails, and such a failure never
changes the outcome of applying a configuration (it never aborts the
run). -/
theorem C9_account_id_fallback :
    (∀ e : String, get_account_id (Except.error e) = "123456789012")
    ∧ ∀ (remote : FirewallRemote) (region : String)
        (config : FirewallConfiguration) (dry_run : Bool) (e : String),
        (apply_configuration { remote with identity := Except.error e }
            region config dry_run).successCount
          = (apply_configuration remote region config dry_run).successCount
        ∧ (apply_configuration { remote with identity := Except.error e }
            region config dry_run).success
          = (apply_configuration remote region config dry_run).success := by
  refine ⟨fun _ => rfl, ?_⟩
  intro remote region config dry_run e
  have hc := process_policies_count_congr { remote with identity := Except.error e }
    remote region dry_run (fun _ => rfl) (fun _ => rfl) (fun _ => rfl) config.policies
  exact ⟨hc, by simp [apply_configuration, hc]⟩

/-- C10: the rule-to-AWS-format conversion discards the boolean result of
each rule-group creation — the ARN list it returns is independent of
whether any rule-group create was accepted, and equals one constructed ARN
per rule; and the success of a policy create/update depends only on the
policy-level call, never on the rule-group results. -/
theorem C10_rule_group_failures_ignored :
    ∀ (remote : FirewallRemote) (region : String) (f : String → Bool)
      (rules : List FirewallRule) (policy : FirewallPolicy),
      (convert_rules_to_aws_format { remote with createRuleGroupOk := f } region rules).1
        = (convert_rules_to_aws_format remote region rules).1
      ∧ (convert_rules_to_aws_format remote region rules).1
          = rules.map (fun r =>
              "arn:aws:network-firewall:" ++ region ++ ":" ++
                get_account_id remote.identity ++ ":stateful-rulegroup/" ++
                (r.name ++ "-rule-group"))
      ∧ (create_firewall_policy { remote with createRuleGroupOk := f } region policy).1
          = remote.createPolicyOk policy.name
      ∧ (update_firewall_policy { remote with createRuleGroupOk := f } region policy).1
          = remote.updatePolicyOk policy.name := by
  intro remote region f rules policy
  refine ⟨?_, convert_rules_arns remote region rules, rfl, rfl⟩
  rw [convert_rules_arns, convert_rules_arns]

/-- C1 counterexample: for the one-route document whose route `10.0.1.0/24`
already exists remotely, the group's per-route success count is 0 — the
skipped route is not counted as a success in the group's summary count, as
the claim states it is. -/
theorem C1_counterexample_skip_not_counted :
    (update_route_table remoteHasRoute rtb1cfg false).successCount = 0
    ∧ ¬ (update_route_table remoteHasRoute rtb1cfg false).successCount = 1 := by
  decide

/-- C1 amended: a desired route whose destination is already in the fetched
existing-destination set is skipped without issuing any mutating call and
the group's update still returns success, so a one-table document yields a
table-level Summary of 1/1; the skipped route, however, is not added to the
group's per-route success count, which stays 0 for a document all of whose
routes already exist. -/
theorem C1_amended_already_exists_skipped (remote : RouteRemote)
    (cfg : RouteTable) (rs : List RemoteRoute)
    (hfound : remote.tableRoutes cfg.table_id = some rs)
    (hall : ∀ r ∈ cfg.routes, r.destination ∈ existing_destinations rs)
    (hcidr : ∀ r ∈ cfg.routes, is_valid_cidr r.destination = true) :
    (update_route_table remote cfg false).success = true
    ∧ (update_route_table remote cfg false).successCount = 0
    ∧ (update_route_table remote cfg false).calls = [RtCall.loadRouteTable cfg.table_id]
    ∧ (route_main remote { route_tables := [cfg] } false false).tablesSucceeded = 1
    ∧ (route_main remote { route_tables := [cfg] } false false).tablesTotal = 1 := by
  have hpr := process_routes_all_existing remote cfg.table_id
    (existing_destinations rs) false cfg.routes hall
  have hupd : update_route_table remote cfg false
      = { success := true, successCount := 0
          calls := [RtCall.loadRouteTable cfg.table_id] } := by
    simp [update_route_table, hfound, hpr]
  have hval : RouteManager.validate_configuration remote { route_tables := [cfg] } = true := by
    simp only [RouteManager.validate_configuration, List.all_cons, List.all_nil,
      Bool.and_true, hfound, Option.isSome_some, Bool.true_and]
    exact List.all_eq_true.mpr hcidr
  refine ⟨by rw [hupd], by rw [hupd], by rw [hupd], ?_, ?_⟩ <;>
    simp [route_main, hval, process_tables, hupd]

/-- C1 witness: the amended statement at the concrete spec scenario — table
`rtb-1` already holds `10.0.1.0/24` and the document desires exactly that
route. -/
theorem C1_amended_witness :
    (update_route_table remoteHasRoute rtb1cfg false).success = true
    ∧ (update_route_table remoteHasRoute rtb1cfg false).successCount = 0
    ∧ (update_route_table remoteHasRoute rtb1cfg false).calls
        = [RtCall.loadRouteTable rtb1cfg.table_id]
    ∧ (route_main remoteHasRoute { route_tables := [rtb1cfg] } false false).tablesSucceeded = 1
    ∧ (route_main remoteHasRoute { route_tables := [rtb1cfg] } false false).tablesTotal = 1 :=
  C1_amended_already_exists_skipped remoteHasRoute rtb1cfg remoteRoutes1
    (by decide) (by decide) (by decide)

/-- C2 counterexample: with `rtb-1` present and the provider rejecting the
route create with a generic error, `update_route_table` still returns
success (`True`) — the group's update does not return failure as the claim
states; the item is only missing from the per-route success count. -/
theorem C2_counterexample_group_still_succeeds :
    (update_route_table remoteRejects rtb1cfg false).success = true
    ∧ (update_route_table remoteRejects rtb1cfg false).successCount = 0 := by
  decide

/-- C2 amended: in normal mode a provider rejection of a route create other
than "already exists" makes `create_route` report failure, so the item is
not counted in the group's per-route success count, but the group's update
still returns success; a provider-reported "already exists" is treated as
success; and the per-table loop continues through every remaining group
(each table's fetch appears in the trace). -/
theorem C2_amended_item_failure_not_group_failure (remote : RouteRemote)
    (table_id : String) (r : Route) (cfg : RouteTable) (rs : List RemoteRoute)
    (hfound : remote.tableRoutes cfg.table_id = some rs)
    (config : RouteConfiguration) (t : RouteTable)
    (ht : t ∈ config.route_tables) (dry_run : Bool) :
    ((remote.createRouteOutcome table_id r = CreateOutcome.error) →
        (create_route remote table_id r).1 = false)
    ∧ ((remote.createRouteOutcome table_id r = CreateOutcome.alreadyExists) →
        (create_route remote table_id r).1 = true)
    ∧ (update_route_table remote cfg false).success = true
    ∧ RtCall.loadRouteTable t.table_id
        ∈ (process_tables remote dry_run config.route_tables).2 := by
  refine ⟨fun he => ?_, fun he => ?_, ?_, ?_⟩
  · simp [create_route, he]
  · simp [create_route, he]
  · simp [update_route_table, hfound]
  · exact process_tables_load_mem remote dry_run config.route_tables t ht

/-- C2 witness: the amended statement at a concrete remote that rejects
every create, a one-route document for `rtb-1`, and a two-table document
whose second table is still fetched. -/
theorem C2_amended_witness :
    ((remoteRejects.createRouteOutcome "rtb-1" route1 = CreateOutcome.error) →
        (create_route remoteRejects "rtb-1" route1).1 = false)
    ∧ ((remoteRejects.createRouteOutcome "rtb-1" route1 = CreateOutcome.alreadyExists) →
        (create_route remoteRejects "rtb-1" route1).1 = true)
    ∧ (update_route_table remoteRejects rtb1cfg false).success = true
    ∧ RtCall.loadRouteTable rtbOther.table_id
        ∈ (process_tables remoteRejects false cfgTwoTables.route_tables).2 :=
  C2_amended_item_failure_not_group_failure remoteRejects "rtb-1" route1 rtb1cfg []
    (by decide) cfgTwoTables rtbOther (by decide) false

/-- C3 counterexample: the firewall document `fwCfg1` passes validation,
credentials are present and the load succeeded, yet — because the provider
rejects the policy create — the firewall tool exits 1: an apply-time
per-item failure does change the exit status, contradicting the claim. -/
theorem C3_counterexample_firewall_apply_failure_exits_1 :
    FirewallManager.validate_configuration fwCfg1 = true
    ∧ firewall_tool_exit true false (some fwCfg1) fwRemoteReject
        "ap-southeast-4" false false = 1 := by
  decide

/-- C3 amended: the route tool exits 1 exactly on validation failure,
credential absence, or configuration load failure and 0 otherwise — its
apply-time per-item failures never change the exit status; the firewall
tool exits 1 on those same conditions and additionally when
`apply_configuration` reports failure, so firewall apply-time failures do
change the exit status. -/
theorem C3_amended_exit_codes :
    (∀ (remote : RouteRemote) (config : RouteConfiguration) (d v : Bool),
        route_tool_exit true (some config) remote d v
          = if RouteManager.validate_configuration remote config then 0 else 1)
    ∧ (∀ (remote : RouteRemote) (loaded : Option RouteConfiguration) (d v : Bool),
        route_tool_exit false loaded remote d v = 1)
    ∧ (∀ (remote : RouteRemote) (d v : Bool),
        route_tool_exit true none remote d v = 1)
    ∧ (∀ (remote : FirewallRemote) (region : String)
        (config : FirewallConfiguration) (d : Bool),
        firewall_tool_exit true false (some config) remote region d false
          = if FirewallManager.validate_configuration config then
              (if (apply_configuration remote region config d).success then 0 else 1)
            else 1)
    ∧ (∀ (remote : FirewallRemote) (region : String)
        (loaded : Option FirewallConfiguration) (lp d v : Bool),
        firewall_tool_exit false lp loaded remote region d v = 1)
    ∧ (∀ (remote : FirewallRemote) (region : String) (d v : Bool),
        firewall_tool_exit true false none remote region d v = 1) := by
  refine ⟨?_, ?_, ?_, ?_, ?_, ?_⟩
  · intro remote config d v
    cases hv : RouteManager.validate_configuration remote config <;> cases v <;>
      simp [route_tool_exit, route_main, hv]
  · intro remote loaded d v; rfl
  · intro remote d v; rfl
  · intro remote region config d
    cases hv : FirewallManager.validate_configuration config <;>
      simp [firewall_tool_exit, hv]
  · intro remote region loaded lp d v; rfl
  · intro remote region d v; rfl

/-- C5: in dry-run mode neither tool issues any mutating call — the
firewall apply trace is exactly one read-only describe per policy and a
route-table update's trace is exactly its read-only fetch — and, when the
provider would reject nothing, the success counts reported by a dry run
equal those of a live run on the same document and remote state. -/
theorem C5_dry_run_no_mutation_same_counts (fwRemote : FirewallRemote)
    (region : String) (fwConfig : FirewallConfiguration)
    (rtRemote : RouteRemote) (rtCfg : RouteTable)
    (hU : ∀ n, fwRemote.updatePolicyOk n = true)
    (hC : ∀ n, fwRemote.createPolicyOk n = true)
    (hR : ∀ tid r, rtRemote.createRouteOutcome tid r ≠ CreateOutcome.error) :
    (apply_configuration fwRemote region fwConfig true).calls
        = fwConfig.policies.map (fun p => FwCall.describePolicy p.name)
    ∧ ((apply_configuration fwRemote region fwConfig true).calls.filter
        FwCall.isMutating) = []
    ∧ (update_route_table rtRemote rtCfg true).calls
        = [RtCall.loadRouteTable rtCfg.table_id]
    ∧ ((update_route_table rtRemote rtCfg true).calls.filter RtCall.isMutating) = []
    ∧ (apply_configuration fwRemote region fwConfig true).successCount
        = (apply_configuration fwRemote region fwConfig false).successCount
    ∧ (update_route_table rtRemote rtCfg true).successCount
        = (update_route_table rtRemote rtCfg false).successCount := by
  have hdry := process_policies_dry fwRemote region fwConfig.policies
  have hcalls : (apply_configuration fwRemote region fwConfig true).calls
      = fwConfig.policies.map (fun p => FwCall.describePolicy p.name) := by
    simp [apply_configuration, hdry]
  refine ⟨hcalls, ?_, update_route_table_dry_calls rtRemote rtCfg, ?_, ?_, ?_⟩
  · rw [hcalls]
    exact filter_mutating_describes (fun p => p.name) fwConfig.policies
  · rw [update_route_table_dry_calls rtRemote rtCfg]
    simp [RtCall.isMutating]
  · have hlive := process_policies_live_count fwRemote region hU hC fwConfig.policies
    simp [apply_configuration, hdry, hlive]
  · cases htr : rtRemote.tableRoutes rtCfg.table_id with
    | none => simp [update_route_table, htr]
    | some rs =>
      simp only [update_route_table, htr]
      exact process_routes_count_dry_eq_live rtRemote rtCfg.table_id
        (existing_destinations rs) (fun r => hR rtCfg.table_id r) rtCfg.routes

/-- C5 witness: the statement at an all-accepting firewall remote with the
one-policy document and an all-accepting route remote with the one-route
document for `rtb-1`. -/
theorem C5_witness :
    (apply_configuration fwRemoteAllOk "ap-southeast-4" fwCfg1 true).calls
        = fwCfg1.policies.map (fun p => FwCall.describePolicy p.name)
    ∧ ((apply_configuration fwRemoteAllOk "ap-southeast-4" fwCfg1 true).calls.filter
        FwCall.isMutating) = []
    ∧ (update_route_table rtRemoteAllOk rtb1cfg true).calls
        = [RtCall.loadRouteTable rtb1cfg.table_id]
    ∧ ((update_route_table rtRemoteAllOk rtb1cfg true).calls.filter
        RtCall.isMutating) = []
    ∧ (apply_configuration fwRemoteAllOk "ap-southeast-4" fwCfg1 true).successCount
        = (apply_configuration fwRemoteAllOk "ap-southeast-4" fwCfg1 false).successCount
    ∧ (update_route_table rtRemoteAllOk rtb1cfg true).successCount
        = (update_route_table rtRemoteAllOk rtb1cfg false).successCount :=
  C5_dry_run_no_mutation_same_counts fwRemoteAllOk "ap-southeast-4" fwCfg1
    rtRemoteAllOk rtb1cfg (fun _ => rfl) (fun _ => rfl)
    (fun _ _ => by simp [rtRemoteAllOk])

/-- C6: if any referenced route-table identifier does not resolve remotely,
or any route destination is not a valid IPv4 CIDR, validation fails for the
whole run, the run exits 1, and no call at all (in particular no mutating
call) is issued by the apply phase — validation is all-or-nothing. -/
theorem C6_validation_all_or_nothing (remote : RouteRemote)
    (config : RouteConfiguration) (dry_run validate_only : Bool)
    (h : (∃ rt ∈ config.route_tables, remote.tableRoutes rt.table_id = none)
       ∨ ∃ rt ∈ config.route_tables, ∃ r ∈ rt.routes,
           is_valid_cidr r.destination = false) :
    RouteManager.validate_configuration remote config = false
    ∧ (route_main remote config dry_run validate_only).exitCode = 1
    ∧ (route_main remote config dry_run validate_only).calls = []
    ∧ route_tool_exit true (some config) remote dry_run validate_only = 1 := by
  have hv : RouteManager.validate_configuration remote config = false := by
    cases hvc : RouteManager.validate_configuration remote config
    · rfl
    · exfalso
      have hall := hvc
      simp only [RouteManager.validate_configuration, List.all_eq_true,
        Bool.and_eq_true] at hall
      rcases h with ⟨rt, hmem, hnone⟩ | ⟨rt, hmem, r, hr, hbad⟩
      · have h1 := (hall rt hmem).1
        rw [hnone] at h1
        cases h1
      · have h2 := (hall rt hmem).2 r hr
        rw [hbad] at h2
        cases h2
  exact ⟨hv, by simp [route_main, hv], by simp [route_main, hv],
    by simp [route_tool_exit, route_main, hv]⟩

/-- C6 witness: the statement at a document referencing `rtb-missing`,
which the concrete remote does not resolve. -/
theorem C6_witness :
    RouteManager.validate_configuration remoteHasRoute cfgMissingTable = false
    ∧ (route_main remoteHasRoute cfgMissingTable false false).exitCode = 1
    ∧ (route_main remoteHasRoute cfgMissingTable false false).calls = []
    ∧ route_tool_exit true (some cfgMissingTable) remoteHasRoute false false = 1 :=
  C6_validation_all_or_nothing remoteHasRoute cfgMissingTable false false
    (Or.inl ⟨{ table_id := "rtb-missing", routes := [] }, by decide, by decide⟩)

/-- C8: the existing-destination set is computed once before the per-route
loop, so two desired routes with the same not-yet-present destination are
both classified as new: in dry-run mode both are counted, and in live mode
a create call is issued for each of them. -/
theorem C8_duplicate_destinations_both_attempted (remote : RouteRemote)
    (cfg : RouteTable) (rs : List RemoteRoute) (r1 r2 : Route)
    (hfound : remote.tableRoutes cfg.table_id = some rs)
    (hroutes : cfg.routes = [r1, r2])
    (hdup : r2.destination = r1.destination)
    (hnew : r1.destination ∉ existing_destinations rs) :
    (update_route_table remote cfg true).successCount = 2
    ∧ (update_route_table remote cfg false).calls
        = [RtCall.loadRouteTable cfg.table_id,
           RtCall.createRoute cfg.table_id r1.destination
             (targetParamFor r1.target) r1.target,
           RtCall.createRoute cfg.table_id r2.destination
             (targetParamFor r2.target) r2.target] := by
  have hnew2 : r2.destination ∉ existing_destinations rs := by
    rw [hdup]; exact hnew
  constructor
  · simp [update_route_table, hfound, hroutes, process_routes, hnew, hnew2]
  · simp [update_route_table, hfound, hroutes, process_routes, hnew, hnew2,
      create_route_calls]

/-- C8 witness: the statement at the duplicate-destination document for
`rtb-1` against a remote where the destination is not yet present. -/
theorem C8_witness :
    (update_route_table rtRemoteAllOk rtbDupCfg true).successCount = 2
    ∧ (update_route_table rtRemoteAllOk rtbDupCfg false).calls
        = [RtCall.loadRouteTable rtbDupCfg.table_id,
           RtCall.createRoute rtbDupCfg.table_id route1.destination
             (targetParamFor route1.target) route1.target,
           RtCall.createRoute rtbDupCfg.table_id route1.destination
             (targetParamFor route1.target) route1.target] :=
  C8_duplicate_destinations_both_attempted rtRemoteAllOk rtbDupCfg [] route1 route1
    (by decide) (by decide) (by decide) (by decide)
